import Mathlib

set_option maxRecDepth 8000

/-!
Verification of the OpenAI-compatible HTTP front end in
`src/AI/src/serve_openai.py` (class `OpenAIHandler` and `run_server`/`main`).

The request handlers are embedded shallowly: a JSON value type models what
`json.loads` delivers, request bodies are JSON objects (key/value lists),
and each handler is a pure function from the class state (`model_runner`,
`model_name`) and the parsed body to either a response record or an HTTP
error (`send_error`).  Nondeterministic response fields that no claim
touches (`id` from `uuid.uuid4()`, `created` from `time.time()`) are not
modelled; `created` in `/v1/models` is passed in as an explicit clock value.
JSON numbers are modelled as integers: every numeric literal in the code
and the claims is integral, and no handler computes with a number.
-/

/-- JSON values as produced by `json.loads`. -/
inductive JVal : Type where
  | null : JVal
  | bool (b : Bool) : JVal
  | num (n : Int) : JVal
  | str (s : String) : JVal
  | arr (elems : List JVal) : JVal
  | obj (fields : List (String × JVal)) : JVal

/-- Python `dict.get(k, default)` on a parsed JSON object: the value of the
first binding of `k`, else the default.  (Objects built by `json.loads`
have unique keys, so first-binding lookup coincides with dict lookup.) -/
def pyGet (d : List (String × JVal)) (k : String) (default : JVal) : JVal :=
  match d with
  | [] => default
  | kv :: rest => if kv.fst == k then kv.snd else pyGet rest k default

/-- Python truthiness of a JSON value, as tested by `if not prompt` and
`if not messages`. -/
def truthy : JVal → Bool
  | .null => false
  | .bool b => b
  | .num n => n != 0
  | .str s => s != ""
  | .arr xs => !xs.isEmpty
  | .obj kvs => !kvs.isEmpty

/-- Whether a JSON value is a string. -/
def isStr : JVal → Bool
  | .str _ => true
  | _ => false

/-- Python `a == "lit"` where `a` is an arbitrary JSON value: only equal
strings compare equal; any other type yields `False`. -/
def jIsStrEq : JVal → String → Bool
  | .str s, t => s == t
  | _, _ => false

/-- Accumulator pass over the characters for `pySplit`: `cur` holds the
letters of the word being read, in reverse. -/
def pySplitAux : List Char → List Char → List String
  | [], cur => if cur.isEmpty then [] else [String.mk cur.reverse]
  | c :: rest, cur =>
      if c.isWhitespace then
        if cur.isEmpty then pySplitAux rest []
        else String.mk cur.reverse :: pySplitAux rest []
      else pySplitAux rest (c :: cur)

/-- Python `s.split()` with no separator: split on whitespace runs,
discarding empty pieces. -/
def pySplit (s : String) : List String := pySplitAux s.data []

/-- The word count `len(s.split())` used for the `usage` fields. -/
def wordCount (s : String) : Nat := (pySplit s).length

mutual

/-- Python `str(v)` as used by f-string interpolation (`f"User: {content}"`):
strings pass through, scalars print Python-style, containers print their
`repr`.  (Character escaping inside `repr` of strings is not modelled; no
reachable claim evaluates it.) -/
def pyStr : JVal → String
  | .null => "None"
  | .bool true => "True"
  | .bool false => "False"
  | .num n => toString n
  | .str s => s
  | .arr xs => "[" ++ String.intercalate ", " (pyReprList xs) ++ "]"
  | .obj kvs => "\x7b" ++ String.intercalate ", " (pyReprFields kvs) ++ "\x7d"

/-- Python `repr` of each element of a list. -/
def pyReprList : List JVal → List String
  | [] => []
  | v :: vs => pyReprJ v :: pyReprList vs

/-- Python `repr` of each `key: value` binding of a dict. -/
def pyReprFields : List (String × JVal) → List String
  | [] => []
  | (k, v) :: kvs => ("\x27" ++ k ++ "\x27: " ++ pyReprJ v) :: pyReprFields kvs

/-- Python `repr(v)` of a JSON value (strings gain quotes, the rest prints
as in `pyStr`). -/
def pyReprJ : JVal → String
  | .null => "None"
  | .bool true => "True"
  | .bool false => "False"
  | .num n => toString n
  | .str s => "\x27" ++ s ++ "\x27"
  | .arr xs => "[" ++ String.intercalate ", " (pyReprList xs) ++ "]"
  | .obj kvs => "\x7b" ++ String.intercalate ", " (pyReprFields kvs) ++ "\x7d"

end

/-- One loop iteration of `messages_to_prompt` (lines 203-211): `none` when
`msg` is not a dict (`msg.get` raises `AttributeError`, which aborts the
handler), `some none` when the role matches no branch (nothing is appended),
`some (some part)` when a role-labelled part is appended. -/
def msgPart (msg : JVal) : Option (Option String) :=
  match msg with
  | .obj kvs =>
      let role := pyGet kvs "role" (.str "user")
      let content := pyGet kvs "content" (.str "")
      if jIsStrEq role "system" then some (some ("System: " ++ pyStr content))
      else if jIsStrEq role "user" then some (some ("User: " ++ pyStr content))
      else if jIsStrEq role "assistant" then some (some ("Assistant: " ++ pyStr content))
      else some none
  | _ => none

/-- The `prompt_parts` accumulated by the loop of `messages_to_prompt`;
`none` propagates an exception raised on any element. -/
def collectParts : List JVal → Option (List String)
  | [] => some []
  | m :: ms =>
      match msgPart m with
      | none => none
      | some none => collectParts ms
      | some (some p) => (collectParts ms).map (fun ps => p :: ps)

/-- Embedding of `messages_to_prompt` (lines 200-213).  The handler only
calls it on truthy values; iterating any truthy non-list JSON value (or a
list with a non-dict element) raises inside the loop, modelled as `none`. -/
def messages_to_prompt (messages : JVal) : Option String :=
  match messages with
  | .arr msgs =>
      (collectParts msgs).map
        (fun parts => String.intercalate "\n" (parts ++ ["Assistant:"]))
  | _ => none

/-- The `usage` object of both completion responses. -/
structure Usage where
  prompt_tokens : Nat
  completion_tokens : Nat
  total_tokens : Nat
deriving DecidableEq

/-- One element of `choices` in a `/v1/completions` response. -/
structure CompletionChoice where
  text : String
  index : Nat
  logprobs : Option Unit
  finish_reason : String
deriving DecidableEq

/-- A successful `/v1/completions` response (minus `id` and `created`). -/
structure CompletionResponse where
  object : String
  model : String
  choices : List CompletionChoice
  usage : Usage
deriving DecidableEq

/-- The `message` object inside a chat choice. -/
structure ChatMessage where
  role : String
  content : String
deriving DecidableEq

/-- One element of `choices` in a `/v1/chat/completions` response. -/
structure ChatChoice where
  index : Nat
  message : ChatMessage
  finish_reason : String
deriving DecidableEq

/-- A successful `/v1/chat/completions` response (minus `id`/`created`). -/
structure ChatCompletionResponse where
  object : String
  model : String
  choices : List ChatChoice
  usage : Usage
deriving DecidableEq

/-- Outcome of a POST handler: a JSON response, or `send_error status msg`. -/
inductive HResult (α : Type) where
  | ok (response : α)
  | err (status : Nat) (msg : String)
deriving DecidableEq

/-- Whether a handler outcome is a successful response. -/
def HResult.isOk {α : Type} : HResult α → Bool
  | .ok _ => true
  | .err _ _ => false

/-- The fixed completion text used when `model_runner is None` (lines 118
and 169). -/
def placeholderText : String :=
  "[Model not loaded] This is a placeholder response. Please load a model to get actual completions."

/-- Embedding of `generate_text` (lines 215-223): a fixed template around
`prompt[:50]`; the sampling parameters are ignored.  Its internal
`try/except` never fires on a string prompt. -/
def generate_text (prompt : String) (max_tokens temperature top_p : JVal) : String :=
  "[Generated response for: " ++ prompt.take 50 ++ "...]"

/-- Python `prompt.split()` on the raw JSON value of `prompt` (lines
137-139): only a string has `.split`; any other value raises
`AttributeError`, caught by the handler's `except` clause. -/
def jSplitCount : JVal → Option Nat
  | .str s => some (wordCount s)
  | _ => none

/-- Status text of the catch-all `except` branch (lines 146 and 198); the
Python message also embeds `str(e)`, which no claim depends on. -/
def internalErrorMsg : String := "Internal server error"

/-- Embedding of `handle_completions` (lines 99-146).  In the
`model_runner` branch for a non-string truthy prompt the Python slice can
either format or raise inside `generate_text`'s own `try`; the resulting
text is unobservable because `prompt.split()` then raises and the whole
request answers 500, so a fixed stand-in string is used for that case. -/
def handle_completions (model_runner : Option Unit) (model_name : String)
    (request_data : List (String × JVal)) : HResult CompletionResponse :=
  let prompt := pyGet request_data "prompt" (.str "")
  let max_tokens := pyGet request_data "max_tokens" (.num 100)
  let temperature := pyGet request_data "temperature" (.num 1)
  let top_p := pyGet request_data "top_p" (.num 1)
  let _n := pyGet request_data "n" (.num 1)
  if truthy prompt = false then
    .err 400 "Missing \x27prompt\x27 field"
  else
    let completion_text :=
      match model_runner with
      | none => placeholderText
      | some _ =>
          match prompt with
          | .str s => generate_text s max_tokens temperature top_p
          | _ => "[Error generating text]"
    match jSplitCount prompt with
    | none => .err 500 internalErrorMsg
    | some pt =>
        .ok {
          object := "text_completion"
          model := model_name
          choices := [{ text := completion_text, index := 0, logprobs := none,
                        finish_reason := "length" }]
          usage := { prompt_tokens := pt
                     completion_tokens := wordCount completion_text
                     total_tokens := pt + wordCount completion_text } }

/-- Embedding of `handle_chat_completions` (lines 148-198).  The flattened
prompt is always a string, so the `usage` computation cannot raise here;
only a bad `messages` value can (via `messages_to_prompt`). -/
def handle_chat_completions (model_runner : Option Unit) (model_name : String)
    (request_data : List (String × JVal)) : HResult ChatCompletionResponse :=
  let messages := pyGet request_data "messages" (.arr [])
  let max_tokens := pyGet request_data "max_tokens" (.num 100)
  let temperature := pyGet request_data "temperature" (.num 1)
  let top_p := pyGet request_data "top_p" (.num 1)
  if truthy messages = false then
    .err 400 "Missing \x27messages\x27 field"
  else
    match messages_to_prompt messages with
    | none => .err 500 internalErrorMsg
    | some prompt =>
        let completion_text :=
          match model_runner with
          | none => placeholderText
          | some _ => generate_text prompt max_tokens temperature top_p
        .ok {
          object := "chat.completion"
          model := model_name
          choices := [{ index := 0
                        message := { role := "assistant", content := completion_text }
                        finish_reason := "length" }]
          usage := { prompt_tokens := wordCount prompt
                     completion_tokens := wordCount completion_text
                     total_tokens := wordCount prompt + wordCount completion_text } }

/-- Body of the `/health` response. -/
structure HealthResponse where
  status : String
  model_loaded : Bool
deriving DecidableEq

/-- Embedding of `handle_health` (lines 76-79). -/
def handle_health (model_runner : Option Unit) : HealthResponse :=
  { status := "healthy", model_loaded := model_runner.isSome }

/-- One entry of the `/v1/models` listing. -/
structure ModelInfo where
  id : String
  object : String
  created : Nat
  owned_by : String
  permission : List String
  root : String
  parent : Option String
deriving DecidableEq

/-- Body of the `/v1/models` response. -/
structure ModelList where
  object : String
  data : List ModelInfo
deriving DecidableEq

/-- Embedding of `handle_list_models` (lines 81-97); `now` is the value of
`int(time.time())`. -/
def handle_list_models (model_name : String) (now : Nat) : ModelList :=
  { object := "list"
    data := [{ id := model_name, object := "model", created := now,
               owned_by := "tensorrt-llm", permission := [], root := model_name,
               parent := none }] }

/-- Startup configuration of `run_server` (engine directory argument and
whether `os.path.exists` holds for it). -/
structure ServerConfig where
  engine_dir : Option String
  engine_dir_exists : Bool
  model_dir : Option String

/-- The value of `OpenAIHandler.model_runner` after `run_server` (lines
237-277): the load at line 254 is commented out, so no branch — engine
directory present or not — ever assigns it, and it keeps the class default
`None` from line 34.  `main` (lines 280-294) assigns only `model_name`. -/
def run_server_model_runner (cfg : ServerConfig) : Option Unit := none

/-- Default of the `--model_name` argument in `main` (line 286), matching
the class default at line 35. -/
def defaultModelName : String := "gpt-oss-20b"

/-- The successful `/v1/completions` response built at lines 123-141, as a
function of the model name, the completion text and the prompt word count. -/
def mkCompletionResponse (model_name completion_text : String) (pt : Nat) :
    CompletionResponse :=
  { object := "text_completion"
    model := model_name
    choices := [{ text := completion_text, index := 0, logprobs := none,
                  finish_reason := "length" }]
    usage := { prompt_tokens := pt
               completion_tokens := wordCount completion_text
               total_tokens := pt + wordCount completion_text } }

/-- The successful `/v1/chat/completions` response built at lines 173-193. -/
def mkChatResponse (model_name completion_text : String) (pt : Nat) :
    ChatCompletionResponse :=
  { object := "chat.completion"
    model := model_name
    choices := [{ index := 0
                  message := { role := "assistant", content := completion_text }
                  finish_reason := "length" }]
    usage := { prompt_tokens := pt
               completion_tokens := wordCount completion_text
               total_tokens := pt + wordCount completion_text } }

/-- The completion text chosen by the `model_runner is None` test for a
string prompt. -/
def completionTextFor (model_runner : Option Unit) (prompt : String)
    (max_tokens temperature top_p : JVal) : String :=
  match model_runner with
  | none => placeholderText
  | some _ => generate_text prompt max_tokens temperature top_p

/-- Adding a key with an explicit value when it is absent: the request one
obtains by supplying an omitted optional parameter explicitly. -/
def withDefault (d : List (String × JVal)) (k : String) (v : JVal) :
    List (String × JVal) :=
  if d.all (fun kv => kv.fst != k) then d ++ [(k, v)] else d

/-- An example completion request body. -/
def exReq : List (String × JVal) := [("prompt", JVal.str "a b")]

/-- An example chat completion request body. -/
def exChatReq : List (String × JVal) :=
  [("messages", JVal.arr [JVal.obj [("role", JVal.str "user"),
                                    ("content", JVal.str "Hi")]])]

/-- The response to `exReq` with no model loaded. -/
def exOkPlaceholder : CompletionResponse :=
  mkCompletionResponse defaultModelName placeholderText 2

/-- The chat response to `exChatReq` with no model loaded. -/
def exChatOkPlaceholder : ChatCompletionResponse :=
  mkChatResponse defaultModelName placeholderText 3

/-- The response to `exReq` with a model runner present. -/
def exOkGenerated : CompletionResponse :=
  mkCompletionResponse defaultModelName
    (generate_text "a b" (JVal.num 100) (JVal.num 1) (JVal.num 1)) 2

lemma pyGet_append (d1 d2 : List (String × JVal)) (k : String) (v : JVal) :
    pyGet (d1 ++ d2) k v = pyGet d1 k (pyGet d2 k v) := by
  induction d1 with
  | nil => rfl
  | cons kv rest ih => simp [pyGet, ih]

lemma pyGet_absent (d : List (String × JVal)) (k : String) (v : JVal)
    (h : d.all (fun kv => kv.fst != k) = true) : pyGet d k v = v := by
  induction d with
  | nil => rfl
  | cons kv rest ih =>
      simp only [List.all_cons, Bool.and_eq_true, bne_iff_ne, ne_eq] at h
      simp [pyGet, h.1, ih h.2]

lemma isStr_eq_true_iff (v : JVal) : isStr v = true ↔ ∃ s, v = JVal.str s := by
  cases v <;> simp [isStr]

lemma handle_completions_of_falsy (mr : Option Unit) (name : String)
    (d : List (String × JVal))
    (h : truthy (pyGet d "prompt" (JVal.str "")) = false) :
    handle_completions mr name d = .err 400 "Missing \x27prompt\x27 field" := by
  simp [handle_completions, h]

lemma handle_completions_of_str (mr : Option Unit) (name : String)
    (d : List (String × JVal)) (s : String)
    (hp : pyGet d "prompt" (JVal.str "") = JVal.str s) (hs : s ≠ "") :
    handle_completions mr name d =
      .ok (mkCompletionResponse name
        (completionTextFor mr s (pyGet d "max_tokens" (JVal.num 100))
          (pyGet d "temperature" (JVal.num 1)) (pyGet d "top_p" (JVal.num 1)))
        (wordCount s)) := by
  cases mr <;>
    simp [handle_completions, hp, truthy, hs, jSplitCount, completionTextFor,
      mkCompletionResponse]

lemma handle_completions_of_nonstr (mr : Option Unit) (name : String)
    (d : List (String × JVal))
    (ht : truthy (pyGet d "prompt" (JVal.str "")) = true)
    (hns : isStr (pyGet d "prompt" (JVal.str "")) = false) :
    handle_completions mr name d = .err 500 internalErrorMsg := by
  cases hp : pyGet d "prompt" (JVal.str "") <;>
    rw [hp] at ht hns <;>
    simp_all [handle_completions, hp, isStr, jSplitCount]

lemma handle_completions_ok_inv (mr : Option Unit) (name : String)
    (d : List (String × JVal)) (r : CompletionResponse)
    (h : handle_completions mr name d = .ok r) :
    ∃ s, pyGet d "prompt" (JVal.str "") = JVal.str s ∧ s ≠ "" ∧
      r = mkCompletionResponse name
        (completionTextFor mr s (pyGet d "max_tokens" (JVal.num 100))
          (pyGet d "temperature" (JVal.num 1)) (pyGet d "top_p" (JVal.num 1)))
        (wordCount s) := by
  by_cases htr : truthy (pyGet d "prompt" (JVal.str "")) = false
  · rw [handle_completions_of_falsy mr name d htr] at h; simp at h
  · have ht : truthy (pyGet d "prompt" (JVal.str "")) = true := by
      revert htr; cases truthy (pyGet d "prompt" (JVal.str "")) <;> simp
    by_cases his : isStr (pyGet d "prompt" (JVal.str "")) = true
    · obtain ⟨s, hp⟩ := (isStr_eq_true_iff _).mp his
      have hs : s ≠ "" := by
        rw [hp] at ht; simpa [truthy] using ht
      refine ⟨s, hp, hs, ?_⟩
      rw [handle_completions_of_str mr name d s hp hs] at h
      exact (HResult.ok.injEq _ _).mp h.symm
    · have hns : isStr (pyGet d "prompt" (JVal.str "")) = false := by
        revert his; cases isStr (pyGet d "prompt" (JVal.str "")) <;> simp
      rw [handle_completions_of_nonstr mr name d ht hns] at h; simp at h

lemma handle_chat_of_falsy (mr : Option Unit) (name : String)
    (d : List (String × JVal))
    (h : truthy (pyGet d "messages" (JVal.arr [])) = false) :
    handle_chat_completions mr name d =
      .err 400 "Missing \x27messages\x27 field" := by
  simp [handle_chat_completions, h]

lemma handle_chat_of_prompt (mr : Option Unit) (name : String)
    (d : List (String × JVal)) (p : String)
    (ht : truthy (pyGet d "messages" (JVal.arr [])) = true)
    (hp : messages_to_prompt (pyGet d "messages" (JVal.arr [])) = some p) :
    handle_chat_completions mr name d =
      .ok (mkChatResponse name
        (completionTextFor mr p (pyGet d "max_tokens" (JVal.num 100))
          (pyGet d "temperature" (JVal.num 1)) (pyGet d "top_p" (JVal.num 1)))
        (wordCount p)) := by
  cases mr <;>
    simp [handle_chat_completions, ht, hp, completionTextFor, mkChatResponse]

lemma handle_chat_of_raise (mr : Option Unit) (name : String)
    (d : List (String × JVal))
    (ht : truthy (pyGet d "messages" (JVal.arr [])) = true)
    (hp : messages_to_prompt (pyGet d "messages" (JVal.arr [])) = none) :
    handle_chat_completions mr name d = .err 500 internalErrorMsg := by
  simp [handle_chat_completions, ht, hp]

lemma handle_chat_ok_inv (mr : Option Unit) (name : String)
    (d : List (String × JVal)) (r : ChatCompletionResponse)
    (h : handle_chat_completions mr name d = .ok r) :
    ∃ p, messages_to_prompt (pyGet d "messages" (JVal.arr [])) = some p ∧
      r = mkChatResponse name
        (completionTextFor mr p (pyGet d "max_tokens" (JVal.num 100))
          (pyGet d "temperature" (JVal.num 1)) (pyGet d "top_p" (JVal.num 1)))
        (wordCount p) := by
  by_cases htr : truthy (pyGet d "messages" (JVal.arr [])) = false
  · rw [handle_chat_of_falsy mr name d htr] at h; simp at h
  · have ht : truthy (pyGet d "messages" (JVal.arr [])) = true := by
      revert htr; cases truthy (pyGet d "messages" (JVal.arr [])) <;> simp
    cases hm : messages_to_prompt (pyGet d "messages" (JVal.arr [])) with
    | none => rw [handle_chat_of_raise mr name d ht hm] at h; simp at h
    | some p =>
        refine ⟨p, rfl, ?_⟩
        rw [handle_chat_of_prompt mr name d p ht hm] at h
        exact (HResult.ok.injEq _ _).mp h.symm

lemma handle_completions_congr (mr : Option Unit) (name : String)
    (d1 d2 : List (String × JVal))
    (h1 : pyGet d1 "prompt" (JVal.str "") = pyGet d2 "prompt" (JVal.str ""))
    (h2 : pyGet d1 "max_tokens" (JVal.num 100) = pyGet d2 "max_tokens" (JVal.num 100))
    (h3 : pyGet d1 "temperature" (JVal.num 1) = pyGet d2 "temperature" (JVal.num 1))
    (h4 : pyGet d1 "top_p" (JVal.num 1) = pyGet d2 "top_p" (JVal.num 1)) :
    handle_completions mr name d1 = handle_completions mr name d2 := by
  simp only [handle_completions, h1, h2, h3, h4]

lemma handle_chat_congr (mr : Option Unit) (name : String)
    (d1 d2 : List (String × JVal))
    (h1 : pyGet d1 "messages" (JVal.arr []) = pyGet d2 "messages" (JVal.arr []))
    (h2 : pyGet d1 "max_tokens" (JVal.num 100) = pyGet d2 "max_tokens" (JVal.num 100))
    (h3 : pyGet d1 "temperature" (JVal.num 1) = pyGet d2 "temperature" (JVal.num 1))
    (h4 : pyGet d1 "top_p" (JVal.num 1) = pyGet d2 "top_p" (JVal.num 1)) :
    handle_chat_completions mr name d1 = handle_chat_completions mr name d2 := by
  simp only [handle_chat_completions, h1, h2, h3, h4]

lemma pyGet_withDefault_self (d : List (String × JVal)) (k : String) (v : JVal) :
    pyGet (withDefault d k v) k v = pyGet d k v := by
  unfold withDefault
  split
  · rw [pyGet_append]; simp [pyGet]
  · rfl

lemma pyGet_withDefault_ne (d : List (String × JVal)) (k : String) (v : JVal)
    (k2 : String) (v2 : JVal) (h : k ≠ k2) :
    pyGet (withDefault d k2 v2) k v = pyGet d k v := by
  unfold withDefault
  split
  · rw [pyGet_append]
    have hb : (k2 == k) = false := by
      simp [Ne.symm h]
    simp [pyGet, hb]
  · rfl

/-- C1: for every successful POST /v1/completions and POST
/v1/chat/completions response, `usage.total_tokens` is the sum of
`usage.prompt_tokens` and `usage.completion_tokens`, `prompt_tokens` is the
whitespace word count of the prompt string (for chat, of the flattened
prompt), and `completion_tokens` is the whitespace word count of the
completion text. -/
theorem usage_token_counts :
    (∀ (mr : Option Unit) (name : String) (d : List (String × JVal))
        (s : String) (r : CompletionResponse),
        pyGet d "prompt" (JVal.str "") = JVal.str s →
        handle_completions mr name d = HResult.ok r →
        r.usage.total_tokens = r.usage.prompt_tokens + r.usage.completion_tokens ∧
        r.usage.prompt_tokens = wordCount s ∧
        r.choices.map (fun c => wordCount c.text) = [r.usage.completion_tokens]) ∧
    (∀ (mr : Option Unit) (name : String) (d : List (String × JVal))
        (p : String) (r : ChatCompletionResponse),
        messages_to_prompt (pyGet d "messages" (JVal.arr [])) = some p →
        handle_chat_completions mr name d = HResult.ok r →
        r.usage.total_tokens = r.usage.prompt_tokens + r.usage.completion_tokens ∧
        r.usage.prompt_tokens = wordCount p ∧
        r.choices.map (fun c => wordCount c.message.content) =
          [r.usage.completion_tokens]) := by
  constructor
  · intro mr name d s r hp h
    obtain ⟨s2, hp2, hs2, hr⟩ := handle_completions_ok_inv mr name d r h
    rw [hp] at hp2
    obtain rfl : s = s2 := by injection hp2
    subst hr
    simp [mkCompletionResponse]
  · intro mr name d p r hp h
    obtain ⟨p2, hp2, hr⟩ := handle_chat_ok_inv mr name d r h
    rw [hp] at hp2
    obtain rfl : p = p2 := by injection hp2
    subst hr
    simp [mkChatResponse]

-- Witness for C1 at a concrete completion and chat request.
theorem usage_token_counts_witness :
    (exOkPlaceholder.usage.total_tokens =
        exOkPlaceholder.usage.prompt_tokens +
          exOkPlaceholder.usage.completion_tokens ∧
      exOkPlaceholder.usage.prompt_tokens = wordCount "a b" ∧
      exOkPlaceholder.choices.map (fun c => wordCount c.text) =
        [exOkPlaceholder.usage.completion_tokens]) ∧
    (exChatOkPlaceholder.usage.total_tokens =
        exChatOkPlaceholder.usage.prompt_tokens +
          exChatOkPlaceholder.usage.completion_tokens ∧
      exChatOkPlaceholder.usage.prompt_tokens =
        wordCount "User: Hi\nAssistant:" ∧
      exChatOkPlaceholder.choices.map (fun c => wordCount c.message.content) =
        [exChatOkPlaceholder.usage.completion_tokens]) :=
  ⟨usage_token_counts.1 none defaultModelName exReq "a b" exOkPlaceholder
      rfl rfl,
   usage_token_counts.2 none defaultModelName exChatReq "User: Hi\nAssistant:"
      exChatOkPlaceholder rfl rfl⟩

/-- C2: a completion request whose body has no `prompt` key gets HTTP 400,
and a chat request whose `messages` value is absent or the empty list gets
HTTP 400; in both cases the handler returns an error, not a completion
payload. -/
theorem missing_required_field_400 :
    (∀ (mr : Option Unit) (name : String) (d : List (String × JVal)),
        d.all (fun kv => kv.fst != "prompt") = true →
        handle_completions mr name d =
          HResult.err 400 "Missing \x27prompt\x27 field") ∧
    (∀ (mr : Option Unit) (name : String) (d : List (String × JVal)),
        (d.all (fun kv => kv.fst != "messages") = true ∨
          pyGet d "messages" (JVal.arr []) = JVal.arr []) →
        handle_chat_completions mr name d =
          HResult.err 400 "Missing \x27messages\x27 field") := by
  constructor
  · intro mr name d h
    exact handle_completions_of_falsy mr name d
      (by rw [pyGet_absent d "prompt" (JVal.str "") h]; rfl)
  · intro mr name d h
    refine handle_chat_of_falsy mr name d ?_
    rcases h with h | h
    · rw [pyGet_absent d "messages" (JVal.arr []) h]; rfl
    · rw [h]; rfl

-- Witness for C2: empty body for both endpoints, and explicit empty
-- messages list.
theorem missing_required_field_400_witness :
    handle_completions none defaultModelName [] =
        HResult.err 400 "Missing \x27prompt\x27 field" ∧
    handle_chat_completions none defaultModelName [] =
        HResult.err 400 "Missing \x27messages\x27 field" ∧
    handle_chat_completions none defaultModelName [("messages", JVal.arr [])] =
        HResult.err 400 "Missing \x27messages\x27 field" :=
  ⟨missing_required_field_400.1 none defaultModelName [] rfl,
   missing_required_field_400.2 none defaultModelName [] (Or.inl rfl),
   missing_required_field_400.2 none defaultModelName
      [("messages", JVal.arr [])] (Or.inr rfl)⟩

/-- C4: `model_runner` stays `None` for every startup configuration (the
load is commented out), so `/health` always reports `model_loaded: false`
and every successful completion text from either endpoint is the fixed
placeholder string — the `generate_text` branch is unreachable. -/
theorem model_runner_never_loaded :
    (∀ cfg : ServerConfig, run_server_model_runner cfg = none) ∧
    (∀ cfg : ServerConfig,
        handle_health (run_server_model_runner cfg) =
          { status := "healthy", model_loaded := false }) ∧
    (∀ (cfg : ServerConfig) (name : String) (d : List (String × JVal))
        (r : CompletionResponse),
        handle_completions (run_server_model_runner cfg) name d = HResult.ok r →
        r.choices.map (fun c => c.text) = [placeholderText]) ∧
    (∀ (cfg : ServerConfig) (name : String) (d : List (String × JVal))
        (r : ChatCompletionResponse),
        handle_chat_completions (run_server_model_runner cfg) name d = HResult.ok r →
        r.choices.map (fun c => c.message.content) = [placeholderText]) := by
  refine ⟨fun _ => rfl, fun _ => rfl, ?_, ?_⟩
  · intro cfg name d r h
    obtain ⟨s, _, _, hr⟩ := handle_completions_ok_inv none name d r h
    subst hr
    simp [mkCompletionResponse, completionTextFor]
  · intro cfg name d r h
    obtain ⟨p, _, hr⟩ := handle_chat_ok_inv none name d r h
    subst hr
    simp [mkChatResponse, completionTextFor]

-- Witness for C4 at a configuration whose engine directory exists, and at
-- concrete successful requests.
theorem model_runner_never_loaded_witness :
    run_server_model_runner ⟨some "/engines", true, none⟩ = none ∧
    handle_health (run_server_model_runner ⟨some "/engines", true, none⟩) =
      { status := "healthy", model_loaded := false } ∧
    exOkPlaceholder.choices.map (fun c => c.text) = [placeholderText] ∧
    exChatOkPlaceholder.choices.map (fun c => c.message.content) =
      [placeholderText] :=
  ⟨model_runner_never_loaded.1 ⟨some "/engines", true, none⟩,
   model_runner_never_loaded.2.1 ⟨some "/engines", true, none⟩,
   model_runner_never_loaded.2.2.1 ⟨some "/engines", true, none⟩
      defaultModelName exReq exOkPlaceholder rfl,
   model_runner_never_loaded.2.2.2 ⟨some "/engines", true, none⟩
      defaultModelName exChatReq exChatOkPlaceholder rfl⟩

/-- C5: every successful completion response has exactly one choice, with
index 0, null logprobs and finish_reason "length" (whatever `n` was), and
every successful chat response has exactly one choice with index 0, an
assistant message and finish_reason "length". -/
theorem single_fixed_choice :
    (∀ (mr : Option Unit) (name : String) (d : List (String × JVal))
        (r : CompletionResponse),
        handle_completions mr name d = HResult.ok r →
        r.choices.map (fun c => (c.index, c.logprobs, c.finish_reason)) =
          [(0, (none : Option Unit), "length")]) ∧
    (∀ (mr : Option Unit) (name : String) (d : List (String × JVal))
        (r : ChatCompletionResponse),
        handle_chat_completions mr name d = HResult.ok r →
        r.choices.map (fun c => (c.index, c.message.role, c.finish_reason)) =
          [(0, "assistant", "length")]) := by
  constructor
  · intro mr name d r h
    obtain ⟨s, _, _, hr⟩ := handle_completions_ok_inv mr name d r h
    subst hr
    simp [mkCompletionResponse]
  · intro mr name d r h
    obtain ⟨p, _, hr⟩ := handle_chat_ok_inv mr name d r h
    subst hr
    simp [mkChatResponse]

-- Witness for C5: the concrete responses to `exReq` (which carries an `n`
-- of its own through the defaults) and `exChatReq`.
theorem single_fixed_choice_witness :
    exOkPlaceholder.choices.map (fun c => (c.index, c.logprobs, c.finish_reason)) =
        [(0, (none : Option Unit), "length")] ∧
    exChatOkPlaceholder.choices.map
        (fun c => (c.index, c.message.role, c.finish_reason)) =
      [(0, "assistant", "length")] :=
  ⟨single_fixed_choice.1 none defaultModelName exReq exOkPlaceholder rfl,
   single_fixed_choice.2 none defaultModelName exChatReq exChatOkPlaceholder
      rfl⟩

/-- The role labels of the spec: each message is prefixed by its
capitalized role label. -/
def specRoleLabel (role : String) : String :=
  if role = "system" then "System"
  else if role = "user" then "User"
  else "Assistant"

lemma collectParts_role_labelled (msgs : List (String × String))
    (hroles : ∀ p ∈ msgs, p.1 = "system" ∨ p.1 = "user" ∨ p.1 = "assistant") :
    collectParts (msgs.map (fun p =>
        JVal.obj [("role", JVal.str p.1), ("content", JVal.str p.2)])) =
      some (msgs.map (fun p => specRoleLabel p.1 ++ ": " ++ p.2)) := by
  induction msgs with
  | nil => rfl
  | cons q qs ih =>
      have hq := hroles q (List.mem_cons_self q qs)
      have ihh := ih (fun p hp => hroles p (List.mem_cons_of_mem q hp))
      rcases hq with h | h | h <;>
        simp [collectParts, msgPart, pyGet, jIsStrEq, pyStr, h, specRoleLabel,
          ihh]

/-- C3: for messages whose roles are system/user/assistant, the flattened
prompt is the newline join of each message's content prefixed by its
capitalized role label, in order, followed by a final "Assistant:" line. -/
theorem chat_prompt_flattening (msgs : List (String × String))
    (hroles : ∀ p ∈ msgs, p.1 = "system" ∨ p.1 = "user" ∨ p.1 = "assistant") :
    messages_to_prompt (JVal.arr (msgs.map (fun p =>
        JVal.obj [("role", JVal.str p.1), ("content", JVal.str p.2)]))) =
      some (String.intercalate "\n"
        (msgs.map (fun p => specRoleLabel p.1 ++ ": " ++ p.2) ++
          ["Assistant:"])) := by
  simp [messages_to_prompt, collectParts_role_labelled msgs hroles]

-- Witness for C3: the system/user example from the spec.
theorem chat_prompt_flattening_witness :
    messages_to_prompt (JVal.arr
        (([("system", "Be terse."), ("user", "Hi")] : List (String × String)).map
          (fun p => JVal.obj [("role", JVal.str p.1), ("content", JVal.str p.2)]))) =
      some (String.intercalate "\n"
        (([("system", "Be terse."), ("user", "Hi")] : List (String × String)).map
            (fun p => specRoleLabel p.1 ++ ": " ++ p.2) ++
          ["Assistant:"])) :=
  chat_prompt_flattening [("system", "Be terse."), ("user", "Hi")] (by decide)

/-- C6: generation is a stub: with no model runner both endpoints answer
with the fixed placeholder text, and `generate_text` is a fixed template
around the first 50 characters of the prompt, independent of `max_tokens`,
`temperature` and `top_p`. -/
theorem generation_is_stub :
    (∀ (prompt : String) (mt t tp : JVal),
        generate_text prompt mt t tp =
          "[Generated response for: " ++ prompt.take 50 ++ "...]") ∧
    (∀ (name : String) (d : List (String × JVal)) (r : CompletionResponse),
        handle_completions none name d = HResult.ok r →
        r.choices.map (fun c => c.text) = [placeholderText]) ∧
    (∀ (name : String) (d : List (String × JVal)) (r : ChatCompletionResponse),
        handle_chat_completions none name d = HResult.ok r →
        r.choices.map (fun c => c.message.content) = [placeholderText]) ∧
    (∀ (name : String) (d : List (String × JVal)) (s : String)
        (r : CompletionResponse),
        pyGet d "prompt" (JVal.str "") = JVal.str s →
        handle_completions (some ()) name d = HResult.ok r →
        r.choices.map (fun c => c.text) =
          ["[Generated response for: " ++ s.take 50 ++ "...]"]) := by
  refine ⟨fun _ _ _ _ => rfl, ?_, ?_, ?_⟩
  · intro name d r h
    obtain ⟨s, _, _, hr⟩ := handle_completions_ok_inv none name d r h
    subst hr
    simp [mkCompletionResponse, completionTextFor]
  · intro name d r h
    obtain ⟨p, _, hr⟩ := handle_chat_ok_inv none name d r h
    subst hr
    simp [mkChatResponse, completionTextFor]
  · intro name d s r hp h
    obtain ⟨s2, hp2, _, hr⟩ := handle_completions_ok_inv (some ()) name d r h
    rw [hp] at hp2
    obtain rfl : s = s2 := by injection hp2
    subst hr
    simp [mkCompletionResponse, completionTextFor, generate_text]

-- Witness for C6: the placeholder response to `exReq`, and the templated
-- response when a runner is present.
theorem generation_is_stub_witness :
    generate_text "a b" (JVal.num 100) (JVal.num 1) (JVal.num 1) =
        "[Generated response for: " ++ ("a b").take 50 ++ "...]" ∧
    exOkPlaceholder.choices.map (fun c => c.text) = [placeholderText] ∧
    exOkGenerated.choices.map (fun c => c.text) =
      ["[Generated response for: " ++ ("a b").take 50 ++ "...]"] :=
  ⟨generation_is_stub.1 "a b" (JVal.num 100) (JVal.num 1) (JVal.num 1),
   generation_is_stub.2.1 defaultModelName exReq exOkPlaceholder rfl,
   generation_is_stub.2.2.2 defaultModelName exReq "a b" exOkGenerated rfl rfl⟩

/-- C7: the `/v1/models` response always has object "list" and exactly one
entry: id and root equal to the configured model name, object "model",
created the current time, owned_by "tensorrt-llm", empty permission and
null parent; the startup default model name is "gpt-oss-20b". -/
theorem models_single_entry :
    (∀ (name : String) (now : Nat),
        handle_list_models name now =
          { object := "list"
            data := [{ id := name, object := "model", created := now,
                       owned_by := "tensorrt-llm", permission := [],
                       root := name, parent := none }] }) ∧
    defaultModelName = "gpt-oss-20b" :=
  ⟨fun _ _ => rfl, rfl⟩

/-- C8: a request that omits `max_tokens`, `temperature`, `top_p` or `n`
is processed exactly as if the documented defaults (100, 1.0, 1.0, 1) had
been supplied explicitly, on both POST endpoints. -/
theorem omitted_optional_params_default :
    (∀ (mr : Option Unit) (name : String) (d : List (String × JVal)),
        handle_completions mr name
            (withDefault (withDefault (withDefault (withDefault d
                "max_tokens" (JVal.num 100)) "temperature" (JVal.num 1))
                "top_p" (JVal.num 1)) "n" (JVal.num 1)) =
          handle_completions mr name d) ∧
    (∀ (mr : Option Unit) (name : String) (d : List (String × JVal)),
        handle_chat_completions mr name
            (withDefault (withDefault (withDefault (withDefault d
                "max_tokens" (JVal.num 100)) "temperature" (JVal.num 1))
                "top_p" (JVal.num 1)) "n" (JVal.num 1)) =
          handle_chat_completions mr name d) := by
  constructor
  · intro mr name d
    apply handle_completions_congr <;>
      simp [pyGet_withDefault_self, pyGet_withDefault_ne]
  · intro mr name d
    apply handle_chat_congr <;>
      simp [pyGet_withDefault_self, pyGet_withDefault_ne]

/-- C9 as stated is false: a truthy non-string prompt (here the number 1)
passes the 400 check but produces no completion payload — `prompt.split()`
raises and the request answers HTTP 500. -/
theorem truthy_nonstring_prompt_gives_500 :
    truthy (pyGet [("prompt", JVal.num 1)] "prompt" (JVal.str "")) = true ∧
    handle_completions none defaultModelName [("prompt", JVal.num 1)] =
      HResult.err 500 internalErrorMsg :=
  ⟨rfl, rfl⟩

/-- C9 amended: POST /v1/completions answers HTTP 400 iff the parsed
`prompt` value is falsy; every truthy string prompt produces a completion
payload, and every truthy non-string prompt yields HTTP 500 instead. -/
theorem prompt_falsy_iff_400 :
    (∀ (mr : Option Unit) (name : String) (d : List (String × JVal)),
        handle_completions mr name d =
            HResult.err 400 "Missing \x27prompt\x27 field" ↔
          truthy (pyGet d "prompt" (JVal.str "")) = false) ∧
    (∀ (mr : Option Unit) (name : String) (d : List (String × JVal))
        (s : String),
        pyGet d "prompt" (JVal.str "") = JVal.str s → s ≠ "" →
        (handle_completions mr name d).isOk = true) ∧
    (∀ (mr : Option Unit) (name : String) (d : List (String × JVal)),
        truthy (pyGet d "prompt" (JVal.str "")) = true →
        isStr (pyGet d "prompt" (JVal.str "")) = false →
        handle_completions mr name d = HResult.err 500 internalErrorMsg) := by
  refine ⟨?_, ?_, ?_⟩
  · intro mr name d
    constructor
    · intro h
      by_contra hfalse
      have ht : truthy (pyGet d "prompt" (JVal.str "")) = true := by
        revert hfalse; cases truthy (pyGet d "prompt" (JVal.str "")) <;> simp
      by_cases his : isStr (pyGet d "prompt" (JVal.str "")) = true
      · obtain ⟨s, hp⟩ := (isStr_eq_true_iff _).mp his
        have hs : s ≠ "" := by rw [hp] at ht; simpa [truthy] using ht
        rw [handle_completions_of_str mr name d s hp hs] at h
        simp at h
      · have hns : isStr (pyGet d "prompt" (JVal.str "")) = false := by
          revert his; cases isStr (pyGet d "prompt" (JVal.str "")) <;> simp
        rw [handle_completions_of_nonstr mr name d ht hns] at h
        simp [internalErrorMsg] at h
    · intro h
      exact handle_completions_of_falsy mr name d h
  · intro mr name d s hp hs
    rw [handle_completions_of_str mr name d s hp hs]
    rfl
  · intro mr name d ht hns
    exact handle_completions_of_nonstr mr name d ht hns

-- Witness for C9's amended statement: the empty body, a plain string
-- prompt, and a boolean prompt.
theorem prompt_falsy_iff_400_witness :
    (handle_completions none defaultModelName [] =
          HResult.err 400 "Missing \x27prompt\x27 field" ↔
        truthy (pyGet [] "prompt" (JVal.str "")) = false) ∧
    (handle_completions none defaultModelName exReq).isOk = true ∧
    handle_completions none defaultModelName [("prompt", JVal.bool true)] =
      HResult.err 500 internalErrorMsg :=
  ⟨prompt_falsy_iff_400.1 none defaultModelName [],
   prompt_falsy_iff_400.2.1 none defaultModelName exReq "a b" rfl (by decide),
   prompt_falsy_iff_400.2.2 none defaultModelName [("prompt", JVal.bool true)]
      rfl rfl⟩

/-- C10: a message without a `role` key is treated as a user message; a
message whose role is none of system/user/assistant contributes nothing to
the flattened prompt; yet such messages still make `messages` non-empty,
so they pass the 400 check. -/
theorem chat_role_default_and_drop :
    (∀ (kvs : List (String × JVal)) (ms : List JVal),
        kvs.all (fun kv => kv.fst != "role") = true →
        collectParts (JVal.obj kvs :: ms) =
          (collectParts ms).map
            (fun ps =>
              ("User: " ++ pyStr (pyGet kvs "content" (JVal.str ""))) :: ps)) ∧
    (∀ (kvs : List (String × JVal)) (ms : List JVal),
        jIsStrEq (pyGet kvs "role" (JVal.str "user")) "system" = false →
        jIsStrEq (pyGet kvs "role" (JVal.str "user")) "user" = false →
        jIsStrEq (pyGet kvs "role" (JVal.str "user")) "assistant" = false →
        collectParts (JVal.obj kvs :: ms) = collectParts ms) ∧
    (∀ (mr : Option Unit) (name : String) (d : List (String × JVal))
        (msgs : List JVal),
        pyGet d "messages" (JVal.arr []) = JVal.arr msgs → msgs ≠ [] →
        handle_chat_completions mr name d ≠
          HResult.err 400 "Missing \x27messages\x27 field") := by
  refine ⟨?_, ?_, ?_⟩
  · intro kvs ms h
    simp [collectParts, msgPart, pyGet_absent kvs "role" (JVal.str "user") h,
      jIsStrEq]
  · intro kvs ms h1 h2 h3
    simp [collectParts, msgPart, h1, h2, h3]
  · intro mr name d msgs hp hne h400
    have ht : truthy (pyGet d "messages" (JVal.arr [])) = true := by
      rw [hp]; simp [truthy, hne]
    cases hm : messages_to_prompt (pyGet d "messages" (JVal.arr [])) with
    | none =>
        rw [handle_chat_of_raise mr name d ht hm] at h400
        simp [internalErrorMsg] at h400
    | some p =>
        rw [handle_chat_of_prompt mr name d p ht hm] at h400
        simp at h400

-- Witness for C10: a message with only content, a message with role
-- "tool", and a request whose only message is dropped yet passes the
-- non-emptiness check.
theorem chat_role_default_and_drop_witness :
    collectParts (JVal.obj [("content", JVal.str "x")] :: []) =
        (collectParts []).map
          (fun ps =>
            ("User: " ++
              pyStr (pyGet [("content", JVal.str "x")] "content"
                (JVal.str ""))) :: ps) ∧
    collectParts (JVal.obj [("role", JVal.str "tool")] :: []) =
        collectParts [] ∧
    handle_chat_completions none defaultModelName
        [("messages", JVal.arr [JVal.obj [("role", JVal.str "tool")]])] ≠
      HResult.err 400 "Missing \x27messages\x27 field" :=
  ⟨chat_role_default_and_drop.1 [("content", JVal.str "x")] [] rfl,
   chat_role_default_and_drop.2.1 [("role", JVal.str "tool")] [] rfl rfl rfl,
   chat_role_default_and_drop.2.2 none defaultModelName
      [("messages", JVal.arr [JVal.obj [("role", JVal.str "tool")]])]
      [JVal.obj [("role", JVal.str "tool")]] rfl (by simp)⟩
